import Mathlib

/-!
A verification development for `src/common/config.py` (TeleClass repository).

The module under study loads a JSON configuration file, validates it with
pydantic v1 models (`VersionInfo`, `BotConfig`, `ChannelConfig`, `AppConfig`),
and exposes a singleton `ConfigManager` with read accessors, `reload`, and
`update_config`.  Below is a shallow embedding of that code:

* `Json` models the Python values produced by `json.loads` (numbers are
  restricted to integers; no property below depends on float formatting).
* `strValidate`, `boolValidate`, ... model pydantic v1's coercing validators
  for the annotated field types (`str`, `Optional[str]`, `bool`).
* `validateAppConfig` models `AppConfig(**data)` for a parsed JSON object:
  it collects the locations of all violated fields, as pydantic's
  `ValidationError` does (messages are abstracted away, locations kept).
* `loadConfig` models `ConfigManager._load_config` acting on the possible
  outcomes of `read_text` + `json.loads`.
* `reloadRun` / `updateRun` model `reload` / `update_config` as explicit
  state transformers; a raised exception is an `Except.error` result, and
  the state components reflect exactly the mutations performed before the
  raise in the Python source.
-/

namespace TeleClass

/-- JSON values as produced by `json.loads`: `null`, booleans, numbers
(restricted to integers here), strings, arrays, and objects.  An `obj`
represents the parsed Python dict: string keys in insertion order. -/
inductive Json where
  | null
  | bool (b : Bool)
  | num (n : Int)
  | str (s : String)
  | arr (elems : List Json)
  | obj (fields : List (String × Json))

/-- One component of a pydantic error location (`loc`) tuple: a field name
or a sequence index, e.g. `('bots', 0, 'id')`. -/
inductive Loc where
  | fld (name : String)
  | idx (i : Nat)
deriving Repr, DecidableEq

/-- A full error location path, e.g. `[fld "bots", idx 0, fld "id"]`
for pydantic's `bots -> 0 -> id`. -/
abbrev ErrPath := List Loc

/-- The module version string (`__version__ = "1.0.0"` in the source). -/
def moduleVersion : String := "1.0.0"

/-- The `VersionInfo` pydantic model: required `version`, optional
`build_date` defaulting to `None`. -/
structure VersionInfo where
  version : String
  build_date : Option String := none
deriving Repr, DecidableEq

/-- The `BotConfig` pydantic model: required `id`; `name` and `webhook_url`
are `Optional[str]`, which in pydantic v1 implicitly default to `None`. -/
structure BotConfig where
  id : String
  name : Option String := none
  webhook_url : Option String := none
deriving Repr, DecidableEq

/-- The `ChannelConfig` pydantic model: required `id` and `account_id`,
optional `name`. -/
structure ChannelConfig where
  id : String
  name : Option String := none
  account_id : String
deriving Repr, DecidableEq

/-- The `AppConfig` pydantic model.  `feature_flags : Dict[str, bool]` is
modelled as an association list (parsed dicts have unique keys, insertion
order preserved); `version_info` defaults to
`VersionInfo(version=__version__)`. -/
structure AppConfig where
  bots : List BotConfig := []
  channels : List ChannelConfig := []
  classes : List String := []
  feature_flags : List (String × Bool) := []
  version_info : VersionInfo := ⟨moduleVersion, none⟩
deriving Repr, DecidableEq

/-- Pydantic v1 `str` validator applied to a JSON value: strings pass
through; booleans and numbers are coerced with Python's `str()` (a Python
`bool` is an `int`, so `True` becomes `"True"`); `null`, arrays and
objects are rejected. -/
def strValidate : Json → Except Unit String
  | .str s => .ok s
  | .bool b => .ok (if b then "True" else "False")
  | .num n => .ok (toString n)
  | _ => .error ()

/-- Pydantic v1 `Optional[str]` validator: `null` becomes `none`,
otherwise the `str` rules apply. -/
def optStrValidate : Json → Except Unit (Option String)
  | .null => .ok none
  | v => (strValidate v).map some

/-- Pydantic v1 `bool` validator applied to a JSON value: booleans pass
through; the numbers `1`/`0` and the strings (lower-cased)
`1/on/t/true/y/yes` / `0/off/f/false/n/no` are coerced; everything else
is a `BoolError`. -/
def boolValidate : Json → Except Unit Bool
  | .bool b => .ok b
  | .num n =>
      if n = 1 then .ok true
      else if n = 0 then .ok false
      else .error ()
  | .str s =>
      let l := s.toLower
      if ["1", "on", "t", "true", "y", "yes"].contains l then .ok true
      else if ["0", "off", "f", "false", "n", "no"].contains l then .ok false
      else .error ()
  | _ => .error ()

/-- Prepend a location component to every error path of a validation
result (pydantic nests child error locations under the parent field). -/
def prefixPaths (p : Loc) : Except (List ErrPath) α → Except (List ErrPath) α
  | .ok a => .ok a
  | .error es => .error (es.map (p :: ·))

/-- The error paths of a validation result (`[]` on success); used to
collect errors across sibling fields as pydantic does. -/
def errsOf : Except (List ErrPath) α → List ErrPath
  | .ok _ => []
  | .error es => es

/-- A required `str` field of a nested model: missing key or failed `str`
validation yields an error located at that field. -/
def reqStrField (fs : List (String × Json)) (name : String) :
    Except (List ErrPath) String :=
  match fs.lookup name with
  | none => .error [[Loc.fld name]]
  | some v =>
      match strValidate v with
      | .ok s => .ok s
      | .error _ => .error [[Loc.fld name]]

/-- An `Optional[str]` field of a nested model: missing key defaults to
`none`; a present value follows the `Optional[str]` rules. -/
def optStrField (fs : List (String × Json)) (name : String) :
    Except (List ErrPath) (Option String) :=
  match fs.lookup name with
  | none => .ok none
  | some v =>
      match optStrValidate v with
      | .ok s => .ok s
      | .error _ => .error [[Loc.fld name]]

/-- Validation of one `BotConfig` from a JSON value: a non-object is
"value is not a valid dict" (error at the element itself); otherwise the
three fields are validated and all their errors collected. -/
def validateBot : Json → Except (List ErrPath) BotConfig
  | .obj fs =>
      match reqStrField fs "id", optStrField fs "name", optStrField fs "webhook_url" with
      | .ok i, .ok n, .ok w => .ok ⟨i, n, w⟩
      | ri, rn, rw => .error (errsOf ri ++ errsOf rn ++ errsOf rw)
  | _ => .error [[]]

/-- Validation of one `ChannelConfig` from a JSON value. -/
def validateChannel : Json → Except (List ErrPath) ChannelConfig
  | .obj fs =>
      match reqStrField fs "id", optStrField fs "name", reqStrField fs "account_id" with
      | .ok i, .ok n, .ok a => .ok ⟨i, n, a⟩
      | ri, rn, ra => .error (errsOf ri ++ errsOf rn ++ errsOf ra)
  | _ => .error [[]]

/-- Validation of one `VersionInfo` from a JSON value. -/
def validateVersionInfo : Json → Except (List ErrPath) VersionInfo
  | .obj fs =>
      match reqStrField fs "version", optStrField fs "build_date" with
      | .ok v, .ok b => .ok ⟨v, b⟩
      | rv, rb => .error (errsOf rv ++ errsOf rb)
  | _ => .error [[]]

/-- Validation of a `str` list element (for `classes : List[str]`). -/
def jsonToStr (v : Json) : Except (List ErrPath) String :=
  match strValidate v with
  | .ok s => .ok s
  | .error _ => .error [[]]

/-- Element-wise validation of a list, indexing error locations from `n`
and collecting the errors of every failing element, as pydantic does for
`List[...]` fields. -/
def validateIndexed (f : Json → Except (List ErrPath) α) :
    Nat → List Json → Except (List ErrPath) (List α)
  | _, [] => .ok []
  | n, x :: xs =>
      match prefixPaths (Loc.idx n) (f x), validateIndexed f (n + 1) xs with
      | .ok a, .ok as => .ok (a :: as)
      | rh, rt => .error (errsOf rh ++ errsOf rt)

/-- Validation of the `bots` value: must be a JSON array ("value is not a
valid list" otherwise), each element a valid `BotConfig`. -/
def validateBots : Json → Except (List ErrPath) (List BotConfig)
  | .arr xs => validateIndexed validateBot 0 xs
  | _ => .error [[]]

/-- Validation of the `channels` value. -/
def validateChannels : Json → Except (List ErrPath) (List ChannelConfig)
  | .arr xs => validateIndexed validateChannel 0 xs
  | _ => .error [[]]

/-- Validation of the `classes` value. -/
def validateClasses : Json → Except (List ErrPath) (List String)
  | .arr xs => validateIndexed jsonToStr 0 xs
  | _ => .error [[]]

/-- Validation of the entries of a `Dict[str, bool]` value: each value is
`bool`-validated, errors located at the offending key. -/
def validateFlagEntries : List (String × Json) → Except (List ErrPath) (List (String × Bool))
  | [] => .ok []
  | (k, v) :: rest =>
      match boolValidate v, validateFlagEntries rest with
      | .ok b, .ok bs => .ok ((k, b) :: bs)
      | rh, rt =>
          .error ((match rh with | .ok _ => [] | .error _ => [[Loc.fld k]]) ++ errsOf rt)

/-- Validation of the `feature_flags` value: must be a JSON object. -/
def validateFlags : Json → Except (List ErrPath) (List (String × Bool))
  | .obj fs => validateFlagEntries fs
  | _ => .error [[]]

/-- A top-level `AppConfig` field: a missing key takes the declared
default (pydantic `default_factory`); a present value is validated, its
error locations nested under the field name. -/
def vField (fields : List (String × Json)) (name : String) (dflt : α)
    (f : Json → Except (List ErrPath) α) : Except (List ErrPath) α :=
  match fields.lookup name with
  | none => .ok dflt
  | some v => prefixPaths (Loc.fld name) (f v)

/-- The `bots` field of `AppConfig(**data)`: defaults to `[]`. -/
def vBots (fields : List (String × Json)) : Except (List ErrPath) (List BotConfig) :=
  vField fields "bots" [] validateBots

/-- The `channels` field of `AppConfig(**data)`: defaults to `[]`. -/
def vChannels (fields : List (String × Json)) : Except (List ErrPath) (List ChannelConfig) :=
  vField fields "channels" [] validateChannels

/-- The `classes` field of `AppConfig(**data)`: defaults to `[]`. -/
def vClasses (fields : List (String × Json)) : Except (List ErrPath) (List String) :=
  vField fields "classes" [] validateClasses

/-- The `feature_flags` field of `AppConfig(**data)`: defaults to `{}`. -/
def vFlags (fields : List (String × Json)) : Except (List ErrPath) (List (String × Bool)) :=
  vField fields "feature_flags" [] validateFlags

/-- The `version_info` field of `AppConfig(**data)`: defaults to
`VersionInfo(version=__version__)`. -/
def vVinfo (fields : List (String × Json)) : Except (List ErrPath) VersionInfo :=
  vField fields "version_info" ⟨moduleVersion, none⟩ validateVersionInfo

/-- `AppConfig(**data)` for a parsed JSON object `data`: validates the
five declared fields (extra keys are ignored, pydantic v1's default) and
either succeeds or collects all violated field locations in declaration
order. -/
def validateAppConfig (fields : List (String × Json)) : Except (List ErrPath) AppConfig :=
  match vBots fields, vChannels fields, vClasses fields, vFlags fields, vVinfo fields with
  | .ok b, .ok c, .ok l, .ok f, .ok v => .ok ⟨b, c, l, f, v⟩
  | rb, rc, rl, rf, rv =>
      .error (errsOf rb ++ errsOf rc ++ errsOf rl ++ errsOf rf ++ errsOf rv)

/-- An optional string rendered to JSON (`None` becomes `null`). -/
def optStrJson : Option String → Json
  | none => .null
  | some s => .str s

/-- `BotConfig` serialized as pydantic's `.dict()` / `.json()` renders it:
all declared fields, in declaration order, `None` as `null`. -/
def serializeBot (b : BotConfig) : List (String × Json) :=
  [("id", .str b.id), ("name", optStrJson b.name), ("webhook_url", optStrJson b.webhook_url)]

/-- `ChannelConfig` serialized as pydantic renders it. -/
def serializeChannel (c : ChannelConfig) : List (String × Json) :=
  [("id", .str c.id), ("name", optStrJson c.name), ("account_id", .str c.account_id)]

/-- `VersionInfo` serialized as pydantic renders it — also the value of
`self._config.version_info.dict()` in `update_config`. -/
def serializeVersionInfo (v : VersionInfo) : List (String × Json) :=
  [("version", .str v.version), ("build_date", optStrJson v.build_date)]

/-- The field list of `AppConfig` serialized as `new_config.json(...)`
renders it: every declared field in declaration order. -/
def serializeAppConfigFields (c : AppConfig) : List (String × Json) :=
  [("bots", .arr (c.bots.map (fun b => .obj (serializeBot b)))),
   ("channels", .arr (c.channels.map (fun ch => .obj (serializeChannel ch)))),
   ("classes", .arr (c.classes.map Json.str)),
   ("feature_flags", .obj (c.feature_flags.map (fun kv => (kv.1, Json.bool kv.2)))),
   ("version_info", .obj (serializeVersionInfo c.version_info))]

/-- The JSON document written by `update_config`
(`new_config.json(indent=2, ensure_ascii=False)`), modelled at the level
of the JSON value it denotes. -/
def serializeAppConfig (c : AppConfig) : Json :=
  .obj (serializeAppConfigFields c)

/-- What the backing file holds, seen through `read_text` + `json.loads`:
either reading fails (`OSError` family), or the bytes are not valid JSON
(`json.JSONDecodeError`), or they parse to a JSON value. -/
inductive FileContent where
  | ioError
  | invalidJson
  | json (v : Json)

/-- The exceptions `_load_config` can raise: an `OSError` from
`read_text`; a `json.JSONDecodeError` from `json.loads`; a `TypeError`
when the parsed document is not an object (so `AppConfig(**data)` cannot
unpack it); or the `RuntimeError("Invalid configuration: ...")` wrapping
a pydantic `ValidationError`, carrying the violated field locations the
wrapped error reports. -/
inductive LoadError where
  | ioError
  | jsonDecodeError
  | typeErrorNotMapping
  | invalidConfiguration (errs : List ErrPath)
deriving Repr, DecidableEq

/-- `ConfigManager._load_config` as a function of the backing file's
content: read, parse, validate; every failure is raised before
`self._config` is assigned. -/
def loadConfig : FileContent → Except LoadError AppConfig
  | .ioError => .error .ioError
  | .invalidJson => .error .jsonDecodeError
  | .json (.obj fields) =>
      match validateAppConfig fields with
      | .ok c => .ok c
      | .error errs => .error (.invalidConfiguration errs)
  | .json _ => .error .typeErrorNotMapping

/-- True exactly when a load outcome is the wrapped-`ValidationError`
case (`RuntimeError("Invalid configuration: ...")`). -/
def isValidationFailure : Except LoadError AppConfig → Bool
  | .error (.invalidConfiguration _) => true
  | _ => false

/-- The state an initialized `ConfigManager` governs: the installed
in-memory snapshot (`self._config`) and the backing file at
`self._config_path`. -/
structure ConfigState where
  config : AppConfig
  file : FileContent

/-- `reload` (via `_load_config`): on success the snapshot is replaced;
on any failure the exception propagates and, because every raise in
`_load_config` precedes the `self._config = config` assignment, the
state is exactly as before. -/
def reloadRun (st : ConfigState) : Except LoadError Unit × ConfigState :=
  match loadConfig st.file with
  | .ok c => (.ok (), { st with config := c })
  | .error e => (.error e, st)

/-- Whether the `write_text` call in `update_config` succeeds; on
failure the bytes left behind are not specified by the source, so the
model takes them as an arbitrary `residue`. -/
inductive WriteOutcome where
  | ok
  | fail (residue : FileContent)

/-- The exceptions `update_config` can raise: the pydantic
`ValidationError` from `AppConfig(**data)` (unwrapped here — there is no
try/except in `update_config`), or an `OSError` from `write_text`. -/
inductive UpdateError where
  | validationError (errs : List ErrPath)
  | ioError
deriving Repr, DecidableEq

/-- The merge step of `update_config`: when the caller's dict lacks
`"version_info"`, `data["version_info"] = self._config.version_info.dict()`
appends that entry (a new key lands at the end of a Python dict);
otherwise the dict is left as given. -/
def mergePayload (payload : List (String × Json)) (cur : AppConfig) :
    List (String × Json) :=
  if (payload.lookup "version_info").isSome then payload
  else payload ++ [("version_info", .obj (serializeVersionInfo cur.version_info))]

/-- `update_config(data)`: merge `version_info` into the caller's dict,
validate, write the serialized new config to the backing file, then
install it in memory — in that order, so a validation failure touches
neither file nor snapshot, and a write failure leaves the snapshot
unchanged.  The third component is the caller's dict after the call
(the merge step mutates it in place). -/
def updateRun (payload : List (String × Json)) (w : WriteOutcome) (st : ConfigState) :
    Except UpdateError Unit × ConfigState × List (String × Json) :=
  let data := mergePayload payload st.config
  match validateAppConfig data with
  | .error errs => (.error (.validationError errs), st, data)
  | .ok c =>
      match w with
      | .ok => (.ok (), { config := c, file := .json (serializeAppConfig c) }, data)
      | .fail residue => (.error .ioError, { st with file := residue }, data)

/-- `get_feature_flag(name)`: `self._config.feature_flags.get(name, False)`. -/
def get_feature_flag (st : ConfigState) (name : String) : Bool :=
  (st.config.feature_flags.lookup name).getD false

/-- `get_classes()`: a fresh list with the snapshot's class names. -/
def get_classes (st : ConfigState) : List String :=
  st.config.classes

/-- `get_version_info()`: the snapshot's `version_info` (value level;
the reference-level behaviour is studied separately below). -/
def get_version_info (st : ConfigState) : VersionInfo :=
  st.config.version_info

/-- `get_bots()`: `list(self._config.bots)` (value level). -/
def get_bots (st : ConfigState) : List BotConfig :=
  st.config.bots

/-- `get_channels()`: `list(self._config.channels)` (value level). -/
def get_channels (st : ConfigState) : List ChannelConfig :=
  st.config.channels

/-- The process-wide `ConfigManager._instance` slot: empty (`None`), or
holding a broken instance (`_init` raised after `cls._instance` was
assigned, so `_config` is missing), or holding a ready instance with its
installed snapshot. -/
inductive SingletonSlot where
  | empty
  | broken
  | ready (config : AppConfig)

/-- The process-level state `ConfigManager.instance` sees: the singleton
slot and the backing file. -/
structure World where
  slot : SingletonSlot
  file : FileContent

/-- What a successful `ConfigManager.instance()` call hands back: either
a fully initialized instance or the broken one left by a failed first
initialization. -/
inductive Handle where
  | ready (config : AppConfig)
  | broken

/-- The exceptions the `FeatureFlag.is_enabled` path can raise: the
`ValueError("Config path must be provided on first instantiation")`; an
`AttributeError` from touching `self._config` on a broken instance; or a
`_load_config` failure during first initialization. -/
inductive PyError where
  | valueErrorNoPath
  | attributeErrorNoConfig
  | loadFailure (e : LoadError)
deriving Repr, DecidableEq

/-- `ConfigManager.instance(config_path)`: an existing instance (ready or
broken) is returned as-is without touching the file; with an empty slot
and no path, the `ValueError` is raised and nothing is created; with a
path, `cls._instance` is assigned **before** `_init` runs, so a failed
load leaves a broken instance in the slot. -/
def instanceRun (configPath : Option String) (w : World) :
    Except PyError Handle × World :=
  match w.slot with
  | .ready c => (.ok (.ready c), w)
  | .broken => (.ok .broken, w)
  | .empty =>
      match configPath with
      | none => (.error .valueErrorNoPath, w)
      | some _ =>
          match loadConfig w.file with
          | .ok c => (.ok (.ready c), { w with slot := .ready c })
          | .error e => (.error (.loadFailure e), { w with slot := .broken })

/-- `FeatureFlag.is_enabled(flag_name)`: resolves the singleton with no
path (`ConfigManager.instance()`), then forwards to `get_feature_flag`;
on a broken instance the `self._config` access raises `AttributeError`. -/
def featureFlagIsEnabled (flagName : String) (w : World) :
    Except PyError Bool × World :=
  match instanceRun none w with
  | (.error e, w') => (.error e, w')
  | (.ok (.ready c), w') =>
      (.ok ((c.feature_flags.lookup flagName).getD false), w')
  | (.ok .broken, w') => (.error .attributeErrorNoConfig, w')

/-!
Reference semantics of the read accessors.  CPython objects are mutable
and passed by reference: `get_bots` returns `list(self._config.bots)` —
a **new** list object whose elements are the very same `BotConfig`
objects the snapshot holds — while `get_version_info` returns
`self._config.version_info` itself, with no copy at all.  To state what
mutating a returned value does to the store, the accessors are re-modelled
over an explicit heap of addressed objects.
-/

/-- A heap of the Python objects relevant to the accessors: mutable
`VersionInfo` objects, list objects (holding element addresses into the
`BotConfig` pool), and `BotConfig` objects.  Addresses are indices. -/
structure Heap where
  vinfoObjs : List VersionInfo
  listObjs : List (List Nat)
  botObjs : List BotConfig

/-- The snapshot's fields at the reference level: `self._config.bots` is
the address of a list object and `self._config.version_info` the address
of a `VersionInfo` object. -/
structure RefSnapshot where
  botsRef : Nat
  vinfoRef : Nat

/-- A manager state at the reference level: heap plus snapshot. -/
structure RefState where
  heap : Heap
  snap : RefSnapshot

/-- Read a list object off the heap. -/
def heapList (h : Heap) (r : Nat) : List Nat :=
  (h.listObjs.get? r).getD []

/-- Read a `VersionInfo` object off the heap. -/
def heapVinfo (h : Heap) (r : Nat) : VersionInfo :=
  (h.vinfoObjs.get? r).getD ⟨"", none⟩

/-- `get_bots` at the reference level: `list(self._config.bots)`
allocates a fresh list object containing the same element addresses and
returns the new object's address. -/
def getBotsRef (s : RefState) : RefState × Nat :=
  let elems := heapList s.heap s.snap.botsRef
  (⟨{ s.heap with listObjs := s.heap.listObjs ++ [elems] }, s.snap⟩,
   s.heap.listObjs.length)

/-- `get_version_info` at the reference level:
`return self._config.version_info` returns the stored object's own
address — no copy is made. -/
def getVersionInfoRef (s : RefState) : RefState × Nat :=
  (s, s.snap.vinfoRef)

/-- A caller mutating a returned `VersionInfo` object in place
(`v.version = newVersion`; pydantic v1 models are mutable by default). -/
def setVinfoVersion (s : RefState) (r : Nat) (newVersion : String) : RefState :=
  ⟨{ s.heap with
      vinfoObjs := s.heap.vinfoObjs.set r ⟨newVersion, (heapVinfo s.heap r).build_date⟩ },
   s.snap⟩

/-- A caller mutating a returned list object in place (`lst.append(x)`). -/
def listAppendRef (s : RefState) (r : Nat) (elem : Nat) : RefState :=
  ⟨{ s.heap with listObjs := s.heap.listObjs.set r (heapList s.heap r ++ [elem]) },
   s.snap⟩

/-! Helper lemmas. -/

theorem prefixPaths_ok {α : Type} (p : Loc) (a : α) :
    prefixPaths p (.ok a) = .ok a := rfl

theorem prefixPaths_eq_ok {α : Type} (p : Loc) (r : Except (List ErrPath) α) (a : α) :
    prefixPaths p r = .ok a ↔ r = .ok a := by
  cases r <;> simp [prefixPaths]

theorem lookup_append_missing {β : Type} (l : List (String × β)) (k : String) (v : β)
    (h : l.lookup k = none) : (l ++ [(k, v)]).lookup k = some v := by
  induction l with
  | nil => simp [List.lookup]
  | cons p t ih =>
      obtain ⟨k', v'⟩ := p
      simp only [List.lookup, List.cons_append] at h ⊢
      cases hk : (k == k') with
      | true => rw [hk] at h; exact Option.noConfusion h
      | false => rw [hk] at h; exact ih h

theorem optStrValidate_optStrJson (o : Option String) :
    optStrValidate (optStrJson o) = .ok o := by
  cases o <;> rfl

theorem validateBot_serializeBot (b : BotConfig) :
    validateBot (Json.obj (serializeBot b)) = .ok b := by
  obtain ⟨i, n, w⟩ := b
  cases n <;> cases w <;> rfl

theorem validateChannel_serializeChannel (c : ChannelConfig) :
    validateChannel (Json.obj (serializeChannel c)) = .ok c := by
  obtain ⟨i, n, a⟩ := c
  cases n <;> rfl

theorem validateVersionInfo_serialize (v : VersionInfo) :
    validateVersionInfo (Json.obj (serializeVersionInfo v)) = .ok v := by
  obtain ⟨ver, b⟩ := v
  cases b <;> rfl

theorem jsonToStr_str (s : String) : jsonToStr (Json.str s) = .ok s := rfl

theorem validateIndexed_map_ok {α : Type} (f : Json → Except (List ErrPath) α)
    (g : α → Json) (hfg : ∀ b, f (g b) = .ok b) :
    ∀ (n : Nat) (l : List α), validateIndexed f n (l.map g) = .ok l := by
  intro n l
  induction l generalizing n with
  | nil => rfl
  | cons b t ih =>
      simp only [List.map_cons, validateIndexed, hfg b, prefixPaths_ok, ih (n + 1)]

theorem validateFlagEntries_serialized (ff : List (String × Bool)) :
    validateFlagEntries (ff.map (fun kv => (kv.1, Json.bool kv.2))) = .ok ff := by
  induction ff with
  | nil => rfl
  | cons kv t ih =>
      obtain ⟨k, b⟩ := kv
      simp only [List.map_cons, validateFlagEntries, boolValidate, ih]

theorem vBots_serialize (c : AppConfig) :
    vBots (serializeAppConfigFields c) = .ok c.bots := by
  show prefixPaths (Loc.fld "bots")
      (validateIndexed validateBot 0 (c.bots.map (fun b => Json.obj (serializeBot b))))
    = .ok c.bots
  rw [validateIndexed_map_ok validateBot _ validateBot_serializeBot, prefixPaths_ok]

theorem vChannels_serialize (c : AppConfig) :
    vChannels (serializeAppConfigFields c) = .ok c.channels := by
  show prefixPaths (Loc.fld "channels")
      (validateIndexed validateChannel 0
        (c.channels.map (fun ch => Json.obj (serializeChannel ch))))
    = .ok c.channels
  rw [validateIndexed_map_ok validateChannel _ validateChannel_serializeChannel, prefixPaths_ok]

theorem vClasses_serialize (c : AppConfig) :
    vClasses (serializeAppConfigFields c) = .ok c.classes := by
  show prefixPaths (Loc.fld "classes")
      (validateIndexed jsonToStr 0 (c.classes.map Json.str)) = .ok c.classes
  rw [validateIndexed_map_ok jsonToStr _ jsonToStr_str, prefixPaths_ok]

theorem vFlags_serialize (c : AppConfig) :
    vFlags (serializeAppConfigFields c) = .ok c.feature_flags := by
  show prefixPaths (Loc.fld "feature_flags")
      (validateFlagEntries (c.feature_flags.map (fun kv => (kv.1, Json.bool kv.2))))
    = .ok c.feature_flags
  rw [validateFlagEntries_serialized, prefixPaths_ok]

theorem vVinfo_serialize (c : AppConfig) :
    vVinfo (serializeAppConfigFields c) = .ok c.version_info := by
  show prefixPaths (Loc.fld "version_info")
      (validateVersionInfo (Json.obj (serializeVersionInfo c.version_info)))
    = .ok c.version_info
  rw [validateVersionInfo_serialize, prefixPaths_ok]

theorem validateAppConfig_serialize (c : AppConfig) :
    validateAppConfig (serializeAppConfigFields c) = .ok c := by
  unfold validateAppConfig
  rw [vBots_serialize, vChannels_serialize, vClasses_serialize, vFlags_serialize,
    vVinfo_serialize]

theorem validateAppConfig_eq_ok_iff (fields : List (String × Json)) (c : AppConfig) :
    validateAppConfig fields = .ok c ↔
      vBots fields = .ok c.bots ∧ vChannels fields = .ok c.channels ∧
      vClasses fields = .ok c.classes ∧ vFlags fields = .ok c.feature_flags ∧
      vVinfo fields = .ok c.version_info := by
  obtain ⟨b, ch, cl, ff, vi⟩ := c
  unfold validateAppConfig
  cases h1 : vBots fields <;> cases h2 : vChannels fields <;>
    cases h3 : vClasses fields <;> cases h4 : vFlags fields <;>
    cases h5 : vVinfo fields <;> simp_all

theorem vBots_of_lookup_none (fields : List (String × Json))
    (h : fields.lookup "bots" = none) : vBots fields = .ok [] := by
  simp [vBots, vField, h]

theorem vChannels_of_lookup_none (fields : List (String × Json))
    (h : fields.lookup "channels" = none) : vChannels fields = .ok [] := by
  simp [vChannels, vField, h]

theorem vClasses_of_lookup_none (fields : List (String × Json))
    (h : fields.lookup "classes" = none) : vClasses fields = .ok [] := by
  simp [vClasses, vField, h]

theorem vFlags_of_lookup_none (fields : List (String × Json))
    (h : fields.lookup "feature_flags" = none) : vFlags fields = .ok [] := by
  simp [vFlags, vField, h]

theorem vVinfo_of_lookup_none (fields : List (String × Json))
    (h : fields.lookup "version_info" = none) :
    vVinfo fields = .ok ⟨moduleVersion, none⟩ := by
  simp [vVinfo, vField, h]

theorem vVinfo_of_lookup_some (fields : List (String × Json)) (v : Json)
    (h : fields.lookup "version_info" = some v) :
    vVinfo fields = prefixPaths (Loc.fld "version_info") (validateVersionInfo v) := by
  simp [vVinfo, vField, h]

theorem vBots_of_lookup_some (fields : List (String × Json)) (v : Json)
    (h : fields.lookup "bots" = some v) :
    vBots fields = prefixPaths (Loc.fld "bots") (validateBots v) := by
  simp [vBots, vField, h]

theorem mergePayload_of_none (payload : List (String × Json)) (cur : AppConfig)
    (h : payload.lookup "version_info" = none) :
    mergePayload payload cur
      = payload ++ [("version_info", .obj (serializeVersionInfo cur.version_info))] := by
  simp [mergePayload, h]

theorem mergePayload_of_some (payload : List (String × Json)) (cur : AppConfig) (v : Json)
    (h : payload.lookup "version_info" = some v) :
    mergePayload payload cur = payload := by
  simp [mergePayload, h]

theorem mergePayload_lookup_of_none (payload : List (String × Json)) (cur : AppConfig)
    (h : payload.lookup "version_info" = none) :
    (mergePayload payload cur).lookup "version_info"
      = some (.obj (serializeVersionInfo cur.version_info)) := by
  rw [mergePayload_of_none payload cur h]
  exact lookup_append_missing payload "version_info" _ h

theorem lookup_append_other {β : Type} (l : List (String × β)) (k k' : String) (v : β)
    (hk : (k == k') = false) : (l ++ [(k', v)]).lookup k = l.lookup k := by
  induction l with
  | nil => simp [List.lookup, hk]
  | cons p t ih =>
      obtain ⟨k0, v0⟩ := p
      simp only [List.cons_append, List.lookup]
      cases hkk : (k == k0) with
      | true => rfl
      | false => exact ih

theorem mergePayload_lookup_other (payload : List (String × Json)) (cur : AppConfig)
    (k : String) (hk : (k == "version_info") = false) :
    (mergePayload payload cur).lookup k = payload.lookup k := by
  unfold mergePayload
  cases hv : (payload.lookup "version_info").isSome with
  | true => simp [hv]
  | false =>
      simp only [hv, Bool.false_eq_true, if_false]
      exact lookup_append_other payload k "version_info" _ hk

theorem updateRun_ok_inv (payload : List (String × Json)) (w : WriteOutcome)
    (st : ConfigState) (h : (updateRun payload w st).1 = .ok ()) :
    ∃ c, validateAppConfig (mergePayload payload st.config) = .ok c ∧
      updateRun payload w st
        = (.ok (), ⟨c, .json (serializeAppConfig c)⟩, mergePayload payload st.config) := by
  cases hv : validateAppConfig (mergePayload payload st.config) with
  | error es => exact absurd h (by simp [updateRun, hv])
  | ok c =>
      cases w with
      | ok =>
          refine ⟨c, rfl, ?_⟩
          simp [updateRun, hv]
      | fail residue => exact absurd h (by simp [updateRun, hv])

theorem updateRun_payload_out (payload : List (String × Json)) (w : WriteOutcome)
    (st : ConfigState) :
    (updateRun payload w st).2.2 = mergePayload payload st.config := by
  cases hv : validateAppConfig (mergePayload payload st.config) with
  | error es => simp [updateRun, hv]
  | ok c => cases w <;> simp [updateRun, hv]

theorem validateBot_missing_id (bf : List (String × Json))
    (h : bf.lookup "id" = none) :
    ∃ es, validateBot (Json.obj bf) = .error es ∧ [Loc.fld "id"] ∈ es := by
  have hid : reqStrField bf "id" = .error [[Loc.fld "id"]] := by
    simp [reqStrField, h]
  have hb : validateBot (Json.obj bf)
      = (match reqStrField bf "id", optStrField bf "name", optStrField bf "webhook_url" with
         | .ok i, .ok n, .ok w => .ok ⟨i, n, w⟩
         | ri, rn, rw => .error (errsOf ri ++ errsOf rn ++ errsOf rw)) := rfl
  rw [hb, hid]
  cases hn : optStrField bf "name" <;> cases hw : optStrField bf "webhook_url" <;>
    exact ⟨_, rfl,
      List.mem_append_left _ (List.mem_append_left _ (List.mem_singleton.mpr rfl))⟩

theorem validateIndexed_error_mem {α : Type} (f : Json → Except (List ErrPath) α)
    (p : ErrPath) :
    ∀ (xs : List Json) (i : Nat) (x : Json) (es : List ErrPath) (n : Nat),
      xs.get? i = some x → f x = .error es → p ∈ es →
      ∃ es', validateIndexed f n xs = .error es' ∧ (Loc.idx (n + i) :: p) ∈ es' := by
  intro xs
  induction xs with
  | nil => intro i x es n hx; exact absurd hx (by simp)
  | cons y ys ih =>
      intro i x es n hx hf hp
      cases i with
      | zero =>
          have hy : y = x := by simpa using hx
          subst hy
          have hh : prefixPaths (Loc.idx n) (f y) = .error (es.map (Loc.idx n :: ·)) := by
            rw [hf]; rfl
          unfold validateIndexed
          rw [hh]
          cases ht : validateIndexed f (n + 1) ys <;>
            exact ⟨_, rfl,
              List.mem_append_left _
                (List.mem_map.mpr ⟨p, hp, by simp⟩)⟩
      | succ j =>
          have hx' : ys.get? j = some x := by simpa using hx
          obtain ⟨es', hval, hmem⟩ := ih j x es (n + 1) hx' hf hp
          unfold validateIndexed
          rw [hval]
          have harith : n + 1 + j = n + (j + 1) := by omega
          rw [harith] at hmem
          cases hh : prefixPaths (Loc.idx n) (f y) with
          | ok a => exact ⟨_, rfl, List.mem_append_right _ hmem⟩
          | error e0 => exact ⟨_, rfl, List.mem_append_right _ hmem⟩

theorem validateAppConfig_error_of_bots (fields : List (String × Json))
    (es : List ErrPath) (h : vBots fields = .error es) :
    ∃ tot, validateAppConfig fields = .error tot ∧ ∀ p, p ∈ es → p ∈ tot := by
  unfold validateAppConfig
  rw [h]
  cases h2 : vChannels fields <;> cases h3 : vClasses fields <;>
    cases h4 : vFlags fields <;> cases h5 : vVinfo fields <;>
    exact ⟨_, rfl, fun p hp =>
      List.mem_append_left _ (List.mem_append_left _ (List.mem_append_left _
        (List.mem_append_left _ hp)))⟩

theorem vBots_missing_id (fields : List (String × Json)) (xs : List Json)
    (i : Nat) (bf : List (String × Json))
    (hb : fields.lookup "bots" = some (.arr xs))
    (hx : xs.get? i = some (.obj bf))
    (hid : bf.lookup "id" = none) :
    ∃ es, vBots fields = .error es ∧
      [Loc.fld "bots", Loc.idx i, Loc.fld "id"] ∈ es := by
  obtain ⟨es0, hbot, hmem0⟩ := validateBot_missing_id bf hid
  obtain ⟨es1, hidx, hmem1⟩ :=
    validateIndexed_error_mem validateBot [Loc.fld "id"] xs i (.obj bf) es0 0 hx hbot hmem0
  rw [vBots_of_lookup_some fields _ hb]
  have hvb : validateBots (Json.arr xs) = .error es1 := by
    simpa [validateBots] using hidx
  rw [hvb]
  refine ⟨_, rfl, ?_⟩
  have : (Loc.idx (0 + i) :: [Loc.fld "id"]) = [Loc.idx i, Loc.fld "id"] := by simp
  rw [this] at hmem1
  exact List.mem_map.mpr ⟨[Loc.idx i, Loc.fld "id"], hmem1, rfl⟩

theorem vChannels_of_lookup_some (fields : List (String × Json)) (v : Json)
    (h : fields.lookup "channels" = some v) :
    vChannels fields = prefixPaths (Loc.fld "channels") (validateChannels v) := by
  simp [vChannels, vField, h]

theorem validateVersionInfo_missing_version (vf : List (String × Json))
    (h : vf.lookup "version" = none) :
    ∃ es, validateVersionInfo (Json.obj vf) = .error es := by
  have hv : reqStrField vf "version" = .error [[Loc.fld "version"]] := by
    simp [reqStrField, h]
  have hb : validateVersionInfo (Json.obj vf)
      = (match reqStrField vf "version", optStrField vf "build_date" with
         | .ok v, .ok b => .ok ⟨v, b⟩
         | rv, rb => .error (errsOf rv ++ errsOf rb)) := rfl
  rw [hb, hv]
  cases hd : optStrField vf "build_date" <;> exact ⟨_, rfl⟩

theorem validateChannel_missing_id (cf : List (String × Json))
    (h : cf.lookup "id" = none) :
    ∃ es, validateChannel (Json.obj cf) = .error es ∧ [Loc.fld "id"] ∈ es := by
  have hid : reqStrField cf "id" = .error [[Loc.fld "id"]] := by
    simp [reqStrField, h]
  have hb : validateChannel (Json.obj cf)
      = (match reqStrField cf "id", optStrField cf "name", reqStrField cf "account_id" with
         | .ok i, .ok n, .ok a => .ok ⟨i, n, a⟩
         | ri, rn, ra => .error (errsOf ri ++ errsOf rn ++ errsOf ra)) := rfl
  rw [hb, hid]
  cases hn : optStrField cf "name" <;> cases ha : reqStrField cf "account_id" <;>
    exact ⟨_, rfl,
      List.mem_append_left _ (List.mem_append_left _ (List.mem_singleton.mpr rfl))⟩

theorem vChannels_missing_id (fields : List (String × Json)) (xs : List Json)
    (i : Nat) (cf : List (String × Json))
    (hc : fields.lookup "channels" = some (.arr xs))
    (hx : xs.get? i = some (.obj cf))
    (hid : cf.lookup "id" = none) :
    ∃ es, vChannels fields = .error es := by
  obtain ⟨es0, hch, hmem0⟩ := validateChannel_missing_id cf hid
  obtain ⟨es1, hidx, _⟩ :=
    validateIndexed_error_mem validateChannel [Loc.fld "id"] xs i (.obj cf) es0 0 hx hch hmem0
  rw [vChannels_of_lookup_some fields _ hc]
  have hvc : validateChannels (Json.arr xs) = .error es1 := by
    simpa [validateChannels] using hidx
  rw [hvc]
  exact ⟨_, rfl⟩

/-! The claim theorems. -/

/-- Claim C1: error atomicity — whenever `reload` fails (any stage), the
whole manager state is as before; whenever `update_config` fails (merge
validation or file write), the installed in-memory snapshot — hence what
every subsequent accessor observes — is unchanged; and when the failure
is a validation failure of the merged payload, the backing file is
untouched as well. -/
theorem claim_C1_error_atomicity (st : ConfigState) (payload : List (String × Json))
    (w : WriteOutcome) :
    (∀ e : LoadError, (reloadRun st).1 = .error e → (reloadRun st).2 = st)
    ∧ (∀ e : UpdateError, (updateRun payload w st).1 = .error e →
        (updateRun payload w st).2.1.config = st.config
        ∧ ∀ name, get_feature_flag (updateRun payload w st).2.1 name
            = get_feature_flag st name)
    ∧ (∀ errs, (updateRun payload w st).1 = .error (.validationError errs) →
        (updateRun payload w st).2.1.file = st.file) := by
  refine ⟨?_, ?_, ?_⟩
  · intro e h
    cases hl : loadConfig st.file with
    | ok c => exact absurd h (by simp [reloadRun, hl])
    | error e0 => simp [reloadRun, hl]
  · intro e h
    cases hv : validateAppConfig (mergePayload payload st.config) with
    | error es => simp [updateRun, hv, get_feature_flag]
    | ok c =>
        cases w with
        | ok => exact absurd h (by simp [updateRun, hv])
        | fail residue => simp [updateRun, hv, get_feature_flag]
  · intro errs h
    cases hv : validateAppConfig (mergePayload payload st.config) with
    | error es => simp [updateRun, hv]
    | ok c =>
        cases w with
        | ok => exact absurd h (by simp [updateRun, hv])
        | fail residue => exact absurd h (by simp [updateRun, hv])

/-- Witness for C1 at concrete inputs: a file holding invalid JSON makes
`reload` fail and leave the state intact; the payload `{"bots": 0}` fails
validation and `update_config` leaves both snapshot and file intact. -/
theorem claim_C1_witness :
    (reloadRun ⟨{}, .invalidJson⟩).2 = (⟨{}, .invalidJson⟩ : ConfigState)
    ∧ (updateRun [("bots", Json.num 0)] .ok ⟨{}, .invalidJson⟩).2.1.config = ({} : AppConfig)
    ∧ (updateRun [("bots", Json.num 0)] .ok ⟨{}, .invalidJson⟩).2.1.file
        = FileContent.invalidJson :=
  ⟨(claim_C1_error_atomicity ⟨{}, .invalidJson⟩ [("bots", Json.num 0)] .ok).1
      .jsonDecodeError rfl,
   ((claim_C1_error_atomicity ⟨{}, .invalidJson⟩ [("bots", Json.num 0)] .ok).2.1
      (.validationError [[Loc.fld "bots"]]) rfl).1,
   (claim_C1_error_atomicity ⟨{}, .invalidJson⟩ [("bots", Json.num 0)] .ok).2.2
      [[Loc.fld "bots"]] rfl⟩

/-- Claim C2: round-trip law — if the merged payload validates to `c`,
then `update_config` succeeds, the backing file now holds the serialized
`c`, re-reading that file validates back to exactly `c`, and initializing
a fresh store from that file installs `c`. -/
theorem claim_C2_roundtrip (payload : List (String × Json)) (st : ConfigState)
    (c : AppConfig)
    (h : validateAppConfig (mergePayload payload st.config) = .ok c) :
    (updateRun payload .ok st).1 = .ok ()
    ∧ (updateRun payload .ok st).2.1.file = .json (serializeAppConfig c)
    ∧ loadConfig (updateRun payload .ok st).2.1.file = .ok c
    ∧ ∀ p, (instanceRun (some p) ⟨.empty, (updateRun payload .ok st).2.1.file⟩).1
        = .ok (.ready c) := by
  have hrun : updateRun payload .ok st
      = (.ok (), ⟨c, .json (serializeAppConfig c)⟩, mergePayload payload st.config) := by
    simp [updateRun, h]
  have hload : loadConfig (.json (serializeAppConfig c)) = .ok c := by
    have hm : loadConfig (.json (serializeAppConfig c))
        = (match validateAppConfig (serializeAppConfigFields c) with
           | .ok cc => Except.ok cc
           | .error errs => Except.error (LoadError.invalidConfiguration errs)) := rfl
    rw [hm, validateAppConfig_serialize]
  rw [hrun]
  refine ⟨rfl, rfl, hload, ?_⟩
  intro p
  simp [instanceRun, hload]

/-- Witness for C2: updating a fresh default store with
`{"classes": ["A"]}` writes a file that re-initializes to the snapshot
with classes `["A"]` and the preserved default version info. -/
theorem claim_C2_witness :
    (updateRun [("classes", Json.arr [Json.str "A"])] .ok ⟨{}, .invalidJson⟩).2.1.file
      = FileContent.json (serializeAppConfig { classes := ["A"] })
    ∧ (instanceRun (some "config.json")
        ⟨.empty,
         (updateRun [("classes", Json.arr [Json.str "A"])] .ok ⟨{}, .invalidJson⟩).2.1.file⟩).1
      = .ok (.ready { classes := ["A"] }) :=
  ⟨(claim_C2_roundtrip [("classes", Json.arr [Json.str "A"])] ⟨{}, .invalidJson⟩
      { classes := ["A"] } rfl).2.1,
   (claim_C2_roundtrip [("classes", Json.arr [Json.str "A"])] ⟨{}, .invalidJson⟩
      { classes := ["A"] } rfl).2.2.2 "config.json"⟩

/-- Claim C5: `get_feature_flag` returns `false` for every name absent
from the snapshot's feature_flags mapping and the mapped boolean for
every name present. -/
theorem claim_C5_feature_flag_default (st : ConfigState) (name : String) :
    (st.config.feature_flags.lookup name = none → get_feature_flag st name = false)
    ∧ (∀ b, st.config.feature_flags.lookup name = some b →
        get_feature_flag st name = b) := by
  constructor
  · intro h; simp [get_feature_flag, h]
  · intro b h; simp [get_feature_flag, h]

/-- Witness for C5 at Scenario A's configuration. -/
theorem claim_C5_witness :
    get_feature_flag ⟨{ feature_flags := [("use_cache", true)] }, .invalidJson⟩ "other"
      = false
    ∧ get_feature_flag ⟨{ feature_flags := [("use_cache", true)] }, .invalidJson⟩ "use_cache"
      = true :=
  ⟨(claim_C5_feature_flag_default ⟨{ feature_flags := [("use_cache", true)] },
      .invalidJson⟩ "other").1 rfl,
   (claim_C5_feature_flag_default ⟨{ feature_flags := [("use_cache", true)] },
      .invalidJson⟩ "use_cache").2 true rfl⟩

/-- Claim C10: `update_config` mutates the caller's dict — when the
payload lacks `"version_info"`, the call inserts the current snapshot's
serialized version_info at the end of the caller's dict (before
validating, so this happens whether or not the update succeeds); a
payload already containing `"version_info"` is left unmodified. -/
theorem claim_C10_payload_mutation (payload : List (String × Json))
    (w : WriteOutcome) (st : ConfigState) :
    (payload.lookup "version_info" = none →
      (updateRun payload w st).2.2
        = payload ++ [("version_info", .obj (serializeVersionInfo st.config.version_info))])
    ∧ (∀ v, payload.lookup "version_info" = some v →
      (updateRun payload w st).2.2 = payload) := by
  constructor
  · intro h
    rw [updateRun_payload_out]
    exact mergePayload_of_none payload st.config h
  · intro v h
    rw [updateRun_payload_out]
    exact mergePayload_of_some payload st.config v h

/-- Witness for C10: a version_info-less payload comes back with the
snapshot's version_info appended; one that has the key is untouched. -/
theorem claim_C10_witness :
    (updateRun [("classes", Json.arr [Json.str "A"])] .ok ⟨{}, .invalidJson⟩).2.2
      = [("classes", Json.arr [Json.str "A"]),
         ("version_info", Json.obj [("version", Json.str "1.0.0"), ("build_date", Json.null)])]
    ∧ (updateRun [("version_info", Json.obj [("version", Json.str "2.0.0")])] .ok
        ⟨{}, .invalidJson⟩).2.2
      = [("version_info", Json.obj [("version", Json.str "2.0.0")])] :=
  ⟨(claim_C10_payload_mutation [("classes", Json.arr [Json.str "A"])] .ok
      ⟨{}, .invalidJson⟩).1 rfl,
   (claim_C10_payload_mutation [("version_info", Json.obj [("version", Json.str "2.0.0")])]
      .ok ⟨{}, .invalidJson⟩).2 (Json.obj [("version", Json.str "2.0.0")]) rfl⟩

/-- Claim C3 counterexample: the backing file `[]` parses as JSON and
violates the `AppConfig` schema (the root is not an object), yet
initialization fails with the bare `TypeError` from `AppConfig(**data)`,
not with the validation failure (the wrapped `ValidationError`) the
claim requires for every schema-violating parsed document. -/
theorem claim_C3_counterexample :
    loadConfig (.json (.arr [])) = .error .typeErrorNotMapping
    ∧ isValidationFailure (loadConfig (.json (.arr []))) = false :=
  ⟨rfl, rfl⟩

/-- Claim C3 (amended): syntactically invalid JSON fails with the JSON
parse error; content parsing to a JSON *object* that violates the schema
fails with the wrapped validation error carrying the violated field
locations — in particular a bot entry lacking `id` is reported at
`bots -> i -> id` (Scenario C); a parsed non-object instead hits a bare
TypeError. -/
theorem claim_C3_amended (fields : List (String × Json)) :
    loadConfig .invalidJson = .error .jsonDecodeError
    ∧ (∀ errs, validateAppConfig fields = .error errs →
        loadConfig (.json (.obj fields)) = .error (.invalidConfiguration errs))
    ∧ (∀ errs xs i bf, validateAppConfig fields = .error errs →
        fields.lookup "bots" = some (.arr xs) →
        xs.get? i = some (.obj bf) → bf.lookup "id" = none →
        [Loc.fld "bots", Loc.idx i, Loc.fld "id"] ∈ errs) := by
  refine ⟨rfl, ?_, ?_⟩
  · intro errs h
    have hm : loadConfig (.json (.obj fields))
        = (match validateAppConfig fields with
           | .ok c => Except.ok c
           | .error es => Except.error (LoadError.invalidConfiguration es)) := rfl
    rw [hm, h]
  · intro errs xs i bf h hb hx hid
    obtain ⟨es, hvb, hmem⟩ := vBots_missing_id fields xs i bf hb hx hid
    obtain ⟨tot, hva, hsub⟩ := validateAppConfig_error_of_bots fields es hvb
    rw [h] at hva
    cases hva
    exact hsub _ hmem

/-- Witness for C3 (amended) at Scenario C's file
`{"bots": [{"name": "x"}]}`: initialization fails with the wrapped
validation error whose location list names `bots -> 0 -> id`. -/
theorem claim_C3_witness :
    loadConfig (.json (.obj [("bots", Json.arr [Json.obj [("name", Json.str "x")]])]))
      = .error (.invalidConfiguration [[Loc.fld "bots", Loc.idx 0, Loc.fld "id"]])
    ∧ [Loc.fld "bots", Loc.idx 0, Loc.fld "id"]
      ∈ [[Loc.fld "bots", Loc.idx 0, Loc.fld "id"]] :=
  ⟨(claim_C3_amended [("bots", Json.arr [Json.obj [("name", Json.str "x")]])]).2.1
      [[Loc.fld "bots", Loc.idx 0, Loc.fld "id"]] rfl,
   (claim_C3_amended [("bots", Json.arr [Json.obj [("name", Json.str "x")]])]).2.2
      [[Loc.fld "bots", Loc.idx 0, Loc.fld "id"]]
      [Json.obj [("name", Json.str "x")]] 0 [("name", Json.str "x")] rfl rfl rfl rfl⟩

/-- Claim C4: version preservation across partial update — when a
successful `update_config` call's payload lacks `"version_info"`, the new
snapshot's version info (what `get_version_info` returns) equals the
pre-update snapshot's; when the payload carries a `"version_info"` value
validating to `vi`, `vi` is installed instead. -/
theorem claim_C4_version_preservation (payload : List (String × Json))
    (w : WriteOutcome) (st : ConfigState)
    (h : (updateRun payload w st).1 = .ok ()) :
    (payload.lookup "version_info" = none →
      get_version_info (updateRun payload w st).2.1 = get_version_info st)
    ∧ (∀ v vi, payload.lookup "version_info" = some v →
        validateVersionInfo v = .ok vi →
        get_version_info (updateRun payload w st).2.1 = vi) := by
  obtain ⟨c, hval, hrun⟩ := updateRun_ok_inv payload w st h
  rw [hrun]
  constructor
  · intro hnone
    have hlk := mergePayload_lookup_of_none payload st.config hnone
    have h5 := ((validateAppConfig_eq_ok_iff _ c).mp hval).2.2.2.2
    rw [vVinfo_of_lookup_some _ _ hlk, validateVersionInfo_serialize, prefixPaths_ok] at h5
    injection h5 with h6
    simpa [get_version_info] using h6.symm
  · intro v vi hsome hvv
    have hm : mergePayload payload st.config = payload :=
      mergePayload_of_some payload st.config v hsome
    have h5 := ((validateAppConfig_eq_ok_iff _ c).mp hval).2.2.2.2
    rw [hm, vVinfo_of_lookup_some _ _ hsome, hvv, prefixPaths_ok] at h5
    injection h5 with h6
    simpa [get_version_info] using h6.symm

/-- Witness for C4: Scenario D (update `{"classes": ["A"]}` on a store
whose version is "1.0.0" keeps version "1.0.0"); and an update carrying
`{"version_info": {"version": "2.0.0"}}` installs "2.0.0". -/
theorem claim_C4_witness :
    get_version_info
        (updateRun [("classes", Json.arr [Json.str "A"])] .ok ⟨{}, .invalidJson⟩).2.1
      = (⟨"1.0.0", none⟩ : VersionInfo)
    ∧ get_version_info
        (updateRun [("version_info", Json.obj [("version", Json.str "2.0.0")])] .ok
          ⟨{}, .invalidJson⟩).2.1
      = (⟨"2.0.0", none⟩ : VersionInfo) :=
  ⟨(claim_C4_version_preservation [("classes", Json.arr [Json.str "A"])] .ok
      ⟨{}, .invalidJson⟩ rfl).1 rfl,
   (claim_C4_version_preservation [("version_info", Json.obj [("version", Json.str "2.0.0")])]
      .ok ⟨{}, .invalidJson⟩ rfl).2
      (Json.obj [("version", Json.str "2.0.0")]) ⟨"2.0.0", none⟩ rfl rfl⟩

/-- Claim C6: top-level defaults — the empty document initializes to the
all-default snapshot (empty sequences/mapping and version info equal to
the module's own version string with no build date); in any successfully
validated document, each absent top-level field took its default; and a
present nested object missing its required sub-field (`id` for
bots/channels, `version` for version_info) makes validation fail. -/
theorem claim_C6_defaults (fields : List (String × Json)) (c : AppConfig) :
    loadConfig (.json (.obj []))
      = .ok ⟨[], [], [], [], ⟨moduleVersion, none⟩⟩
    ∧ (validateAppConfig fields = .ok c →
        (fields.lookup "bots" = none → c.bots = [])
        ∧ (fields.lookup "channels" = none → c.channels = [])
        ∧ (fields.lookup "classes" = none → c.classes = [])
        ∧ (fields.lookup "feature_flags" = none → c.feature_flags = [])
        ∧ (fields.lookup "version_info" = none →
            c.version_info = ⟨moduleVersion, none⟩))
    ∧ (∀ xs i bf, fields.lookup "bots" = some (.arr xs) →
        xs.get? i = some (.obj bf) → bf.lookup "id" = none →
        validateAppConfig fields ≠ .ok c)
    ∧ (∀ xs i cf, fields.lookup "channels" = some (.arr xs) →
        xs.get? i = some (.obj cf) → cf.lookup "id" = none →
        validateAppConfig fields ≠ .ok c)
    ∧ (∀ vf, fields.lookup "version_info" = some (.obj vf) →
        vf.lookup "version" = none →
        validateAppConfig fields ≠ .ok c) := by
  refine ⟨rfl, ?_, ?_, ?_, ?_⟩
  · intro hok
    have hcomp := (validateAppConfig_eq_ok_iff fields c).mp hok
    refine ⟨?_, ?_, ?_, ?_, ?_⟩
    · intro hb
      have h1 := hcomp.1
      rw [vBots_of_lookup_none fields hb] at h1
      injection h1 with h6
      exact h6.symm
    · intro hb
      have h1 := hcomp.2.1
      rw [vChannels_of_lookup_none fields hb] at h1
      injection h1 with h6
      exact h6.symm
    · intro hb
      have h1 := hcomp.2.2.1
      rw [vClasses_of_lookup_none fields hb] at h1
      injection h1 with h6
      exact h6.symm
    · intro hb
      have h1 := hcomp.2.2.2.1
      rw [vFlags_of_lookup_none fields hb] at h1
      injection h1 with h6
      exact h6.symm
    · intro hb
      have h1 := hcomp.2.2.2.2
      rw [vVinfo_of_lookup_none fields hb] at h1
      injection h1 with h6
      exact h6.symm
  · intro xs i bf hb hx hid hok
    obtain ⟨es, hvb, _⟩ := vBots_missing_id fields xs i bf hb hx hid
    have h1 := ((validateAppConfig_eq_ok_iff fields c).mp hok).1
    rw [hvb] at h1
    exact Except.noConfusion h1
  · intro xs i cf hc hx hid hok
    obtain ⟨es, hvc⟩ := vChannels_missing_id fields xs i cf hc hx hid
    have h1 := ((validateAppConfig_eq_ok_iff fields c).mp hok).2.1
    rw [hvc] at h1
    exact Except.noConfusion h1
  · intro vf hvf hver hok
    obtain ⟨es, hvv⟩ := validateVersionInfo_missing_version vf hver
    have h1 := ((validateAppConfig_eq_ok_iff fields c).mp hok).2.2.2.2
    rw [vVinfo_of_lookup_some _ _ hvf, hvv] at h1
    exact Except.noConfusion h1

/-- Witness for C6: the document `{"feature_flags": {"use_cache": true}}`
validates with every omitted field defaulted (and the module version as
version info), while Scenario C's document with a bot entry lacking `id`
does not validate. -/
theorem claim_C6_witness :
    ({ feature_flags := [("use_cache", true)] } : AppConfig).bots = []
    ∧ ({ feature_flags := [("use_cache", true)] } : AppConfig).version_info
        = (⟨"1.0.0", none⟩ : VersionInfo)
    ∧ validateAppConfig [("bots", Json.arr [Json.obj [("name", Json.str "x")]])]
        ≠ .ok ({} : AppConfig) :=
  ⟨((claim_C6_defaults [("feature_flags", Json.obj [("use_cache", Json.bool true)])]
      { feature_flags := [("use_cache", true)] }).2.1 rfl).1 rfl,
   ((claim_C6_defaults [("feature_flags", Json.obj [("use_cache", Json.bool true)])]
      { feature_flags := [("use_cache", true)] }).2.1 rfl).2.2.2.2 rfl,
   (claim_C6_defaults [("bots", Json.arr [Json.obj [("name", Json.str "x")]])] {}).2.2.1
      [Json.obj [("name", Json.str "x")]] 0 [("name", Json.str "x")] rfl rfl rfl⟩

/-- Claim C9: omitted fields reset — in a successful `update_config`,
every one of bots/channels/classes/feature_flags the payload omits is
empty in the new snapshot (which is also what gets written to the backing
file); only version_info is preserved from the previous snapshot when
omitted. -/
theorem claim_C9_omitted_fields_reset (payload : List (String × Json))
    (w : WriteOutcome) (st : ConfigState)
    (h : (updateRun payload w st).1 = .ok ()) :
    (payload.lookup "bots" = none →
      (updateRun payload w st).2.1.config.bots = [])
    ∧ (payload.lookup "channels" = none →
      (updateRun payload w st).2.1.config.channels = [])
    ∧ (payload.lookup "classes" = none →
      (updateRun payload w st).2.1.config.classes = [])
    ∧ (payload.lookup "feature_flags" = none →
      (updateRun payload w st).2.1.config.feature_flags = [])
    ∧ (payload.lookup "version_info" = none →
      (updateRun payload w st).2.1.config.version_info = st.config.version_info)
    ∧ (updateRun payload w st).2.1.file
        = .json (serializeAppConfig (updateRun payload w st).2.1.config) := by
  obtain ⟨c, hval, hrun⟩ := updateRun_ok_inv payload w st h
  rw [hrun]
  have hcomp := (validateAppConfig_eq_ok_iff _ c).mp hval
  refine ⟨?_, ?_, ?_, ?_, ?_, rfl⟩
  · intro hb
    have hlk : (mergePayload payload st.config).lookup "bots" = none := by
      rw [mergePayload_lookup_other payload st.config "bots" rfl]; exact hb
    have h1 := hcomp.1
    rw [vBots_of_lookup_none _ hlk] at h1
    injection h1 with h6
    exact h6.symm
  · intro hb
    have hlk : (mergePayload payload st.config).lookup "channels" = none := by
      rw [mergePayload_lookup_other payload st.config "channels" rfl]; exact hb
    have h1 := hcomp.2.1
    rw [vChannels_of_lookup_none _ hlk] at h1
    injection h1 with h6
    exact h6.symm
  · intro hb
    have hlk : (mergePayload payload st.config).lookup "classes" = none := by
      rw [mergePayload_lookup_other payload st.config "classes" rfl]; exact hb
    have h1 := hcomp.2.2.1
    rw [vClasses_of_lookup_none _ hlk] at h1
    injection h1 with h6
    exact h6.symm
  · intro hb
    have hlk : (mergePayload payload st.config).lookup "feature_flags" = none := by
      rw [mergePayload_lookup_other payload st.config "feature_flags" rfl]; exact hb
    have h1 := hcomp.2.2.2.1
    rw [vFlags_of_lookup_none _ hlk] at h1
    injection h1 with h6
    exact h6.symm
  · intro hb
    have hlk := mergePayload_lookup_of_none payload st.config hb
    have h1 := hcomp.2.2.2.2
    rw [vVinfo_of_lookup_some _ _ hlk, validateVersionInfo_serialize, prefixPaths_ok] at h1
    injection h1 with h6
    exact h6.symm

/-- Witness for C9: updating a store that has one bot with the payload
`{"classes": ["A"]}` empties the bots in the new snapshot and preserves
the version info. -/
theorem claim_C9_witness :
    (updateRun [("classes", Json.arr [Json.str "A"])] .ok
        ⟨{ bots := [⟨"b1", none, none⟩] }, .invalidJson⟩).2.1.config.bots = []
    ∧ (updateRun [("classes", Json.arr [Json.str "A"])] .ok
        ⟨{ bots := [⟨"b1", none, none⟩] }, .invalidJson⟩).2.1.config.version_info
      = (⟨"1.0.0", none⟩ : VersionInfo) :=
  ⟨(claim_C9_omitted_fields_reset [("classes", Json.arr [Json.str "A"])] .ok
      ⟨{ bots := [⟨"b1", none, none⟩] }, .invalidJson⟩ rfl).1 rfl,
   (claim_C9_omitted_fields_reset [("classes", Json.arr [Json.str "A"])] .ok
      ⟨{ bots := [⟨"b1", none, none⟩] }, .invalidJson⟩ rfl).2.2.2.2.1 rfl⟩

/-- Claim C7 counterexample: starting uninitialized, a first
`instance("config.json")` call on a file with invalid JSON fails — but
only after `cls._instance` was assigned, so a broken instance stays in
the slot.  No successful initialize has occurred, yet
`FeatureFlag.is_enabled` now fails with the AttributeError from touching
`self._config`, not with the missing-path error the claim names. -/
theorem claim_C7_counterexample :
    (instanceRun (some "config.json") (⟨.empty, .invalidJson⟩ : World)).1
      = .error (.loadFailure .jsonDecodeError)
    ∧ (instanceRun (some "config.json") (⟨.empty, .invalidJson⟩ : World)).2
      = (⟨.broken, .invalidJson⟩ : World)
    ∧ (featureFlagIsEnabled "use_cache" (⟨.broken, .invalidJson⟩ : World)).1
      = .error .attributeErrorNoConfig
    ∧ (Except.error PyError.attributeErrorNoConfig : Except PyError Bool)
      ≠ .error PyError.valueErrorNoPath := by
  refine ⟨rfl, rfl, rfl, ?_⟩
  intro hcontra
  exact PyError.noConfusion (Except.error.inj hcontra)

/-- Claim C7 (amended): while the singleton slot is truly empty (no
`instance()` call has created an instance object yet),
`FeatureFlag.is_enabled` fails with the missing-path `ValueError` and
leaves the world unchanged — no instance is created, with no guessed
path; once a failed first initialization has left a broken instance, the
call instead fails with an `AttributeError` (again changing nothing). -/
theorem claim_C7_amended (w : World) (name : String) :
    (w.slot = .empty →
      featureFlagIsEnabled name w = (.error .valueErrorNoPath, w))
    ∧ (w.slot = .broken →
      featureFlagIsEnabled name w = (.error .attributeErrorNoConfig, w)) := by
  obtain ⟨slot, file⟩ := w
  constructor
  · intro h
    cases h
    rfl
  · intro h
    cases h
    rfl

/-- Witness for C7 (amended): with an empty slot, is_enabled fails with
the missing-path error and the slot stays empty. -/
theorem claim_C7_witness :
    featureFlagIsEnabled "use_cache" (⟨.empty, .invalidJson⟩ : World)
      = (.error .valueErrorNoPath, (⟨.empty, .invalidJson⟩ : World)) :=
  (claim_C7_amended ⟨.empty, .invalidJson⟩ "use_cache").1 rfl

/-- A concrete reference-level state: one bot object, the snapshot's bots
list holding a reference to it, and one VersionInfo object "1.0.0". -/
def exampleRefState : RefState :=
  ⟨⟨[⟨"1.0.0", none⟩], [[0]], [⟨"b1", none, none⟩]⟩, ⟨0, 0⟩⟩

/-- Claim C8 counterexample: `get_version_info` returns the snapshot's
own VersionInfo object; after the caller mutates the returned object
(`v.version = "2.0.0"`), a subsequent `get_version_info` observes the
change — so not every accessor returns a copy that shields internal
state from mutation through returned references. -/
theorem claim_C8_counterexample :
    heapVinfo exampleRefState.heap (getVersionInfoRef exampleRefState).2
      = ⟨"1.0.0", none⟩
    ∧ heapVinfo
        (setVinfoVersion exampleRefState (getVersionInfoRef exampleRefState).2 "2.0.0").heap
        (getVersionInfoRef
          (setVinfoVersion exampleRefState (getVersionInfoRef exampleRefState).2 "2.0.0")).2
      = ⟨"2.0.0", none⟩
    ∧ (⟨"2.0.0", none⟩ : VersionInfo) ≠ (⟨"1.0.0", none⟩ : VersionInfo) := by
  refine ⟨rfl, rfl, by decide⟩

/-- Claim C8 (amended): `get_bots` does allocate a fresh list object —
its address is new, it holds the same elements, and mutating it
(appending) leaves the snapshot's own bots list unchanged — but
`get_version_info` hands out the snapshot's mutable VersionInfo object
itself, so mutating the returned object is visible to later reads. -/
theorem claim_C8_amended (s : RefState) (e : Nat) (ver : String)
    (hb : s.snap.botsRef < s.heap.listObjs.length)
    (hv : s.snap.vinfoRef < s.heap.vinfoObjs.length) :
    (getBotsRef s).2 ≠ s.snap.botsRef
    ∧ heapList (getBotsRef s).1.heap (getBotsRef s).2 = heapList s.heap s.snap.botsRef
    ∧ heapList (listAppendRef (getBotsRef s).1 (getBotsRef s).2 e).heap s.snap.botsRef
        = heapList s.heap s.snap.botsRef
    ∧ heapVinfo (setVinfoVersion s (getVersionInfoRef s).2 ver).heap
        (getVersionInfoRef (setVinfoVersion s (getVersionInfoRef s).2 ver)).2
      = ⟨ver, (heapVinfo s.heap s.snap.vinfoRef).build_date⟩ := by
  refine ⟨?_, ?_, ?_, ?_⟩
  · have h1 : (getBotsRef s).2 = s.heap.listObjs.length := rfl
    rw [h1]
    omega
  · simp only [getBotsRef, heapList, List.get?_eq_getElem?]
    rw [List.getElem?_concat_length]
    rfl
  · simp only [getBotsRef, listAppendRef, heapList, List.get?_eq_getElem?]
    rw [List.getElem?_set_ne (by omega), List.getElem?_append_left hb]
  · simp only [getVersionInfoRef, setVinfoVersion, heapVinfo, List.get?_eq_getElem?]
    rw [List.getElem?_set_eq_of_lt _ hv]
    rfl

/-- Witness for C8 (amended) at the concrete reference state: appending
to the list returned by get_bots does not change the snapshot's bots
list, whose object the fresh list is distinct from. -/
theorem claim_C8_witness :
    heapList
        (listAppendRef (getBotsRef exampleRefState).1 (getBotsRef exampleRefState).2 7).heap
        exampleRefState.snap.botsRef
      = heapList exampleRefState.heap exampleRefState.snap.botsRef
    ∧ (getBotsRef exampleRefState).2 ≠ exampleRefState.snap.botsRef :=
  ⟨(claim_C8_amended exampleRefState 7 "2.0.0" (by decide) (by decide)).2.2.1,
   (claim_C8_amended exampleRefState 7 "2.0.0" (by decide) (by decide)).1⟩

end TeleClass

